import Mathlib

/-!
# Verification of the credential service in `my-fullstack-app/server.js`

A shallow embedding of the Express + Postgres credential service:
the schema initializer (`initializeDatabase`, lines 23–40), the
registration handler (`POST /api/register`, lines 45–70), the login
handler (`POST /api/login`, lines 73–100) and the startup sequence
(`app.listen`, lines 104–107).

The Postgres store is modelled as an explicit state (`DBState`): a
catalog of table names (for `CREATE TABLE IF NOT EXISTS`), the rows of
the `users` table, and the next value of the `SERIAL` id sequence.
Each `pool.query` call is modelled as a function on this state that
either returns a result or a `PgError` carrying the Postgres error
code, and each handler records the store operations it issued in an
explicit trace, so that frame/effect properties can be stated.

The bcrypt library is modelled abstractly: `bcrypt.hash(password, 10)`
produces a value determined by the password, a salt (threaded in as an
explicit parameter, standing for the randomness bcrypt draws), and the
cost factor 10; `bcrypt.compare` re-derives the digest from the
candidate password with the stored salt and cost and compares digests,
which in the model is equality of the recorded key. `BcryptHash.render`
is the textual `$2b$cost$salt$digest`-shaped form that the `VARCHAR`
column stores.
-/

namespace Server

/-- A JSON value as it can appear in a request body field (the shapes
relevant to `req.body.username` / `req.body.password`). -/
inductive JsonValue where
  | str (s : String)
  | num (n : Int)
  | bool (b : Bool)
  | null
  deriving DecidableEq, Repr

/-- JavaScript truthiness of a JSON value: `""`, `0`, `false` and
`null` are falsy, everything else here is truthy. -/
def JsonValue.truthy : JsonValue → Bool
  | .str s => !s.isEmpty
  | .num n => n != 0
  | .bool b => b
  | .null => false

/-- Truthiness of a possibly absent field: a missing field destructures
to `undefined`, which is falsy. -/
def truthyOpt : Option JsonValue → Bool
  | none => false
  | some v => v.truthy

/-- The text node-postgres sends for a query parameter of this value
(strings pass through; numbers and booleans are serialized). -/
def JsonValue.pgText : JsonValue → String
  | .str s => s
  | .num n => toString n
  | .bool b => if b then "true" else "false"
  | .null => ""

/-- A request body for the two POST endpoints: each field is present
with some JSON value, or absent. -/
structure RequestBody where
  username : Option JsonValue
  password : Option JsonValue
  deriving DecidableEq, Repr

/-- Model of a bcrypt hash value: cost factor, salt, and the digest,
which for a fixed salt and cost is determined by (and determines) the
hashed password — recorded as `key`. -/
structure BcryptHash where
  cost : Nat
  salt : Nat
  key : String
  deriving DecidableEq, Repr

/-- Models `bcrypt.hash(password, 10)` (line 53): cost factor 10, a
fresh salt drawn by the library (threaded as the `salt` argument), and
a digest determined by the password. -/
def bcrypt_hash (password : String) (salt : Nat) : BcryptHash :=
  { cost := 10, salt := salt, key := password }

/-- Models `bcrypt.compare(password, hash)` (line 89): the digest is
re-derived from `password` with the salt and cost stored in `hash` and
compared to the stored digest; in the model this is equality of keys. -/
def bcrypt_compare (password : String) (hash : BcryptHash) : Bool :=
  hash.key == password

/-- The textual `$2b$<cost>$<salt>$<digest>` form of the hash — the
string `bcrypt.hash` resolves with, which the `VARCHAR(100)`
`password_hash` column stores. -/
def BcryptHash.render (h : BcryptHash) : String :=
  "$2b$" ++ Nat.repr h.cost ++ "$" ++ Nat.repr h.salt ++ "$" ++ h.key

/-- A row of the `users` table (line 27–32): `id SERIAL PRIMARY KEY`,
`username VARCHAR(50) UNIQUE NOT NULL`, `password_hash VARCHAR(100)
NOT NULL` (held in parsed form, see `BcryptHash.render`), `created_at`
defaulted to the insertion timestamp. -/
structure UserRow where
  id : Nat
  username : String
  password_hash : BcryptHash
  created_at : Nat
  deriving DecidableEq, Repr

/-- A Postgres error, identified by its error code (the only field the
program inspects, line 64). -/
structure PgError where
  code : String
  deriving DecidableEq, Repr

/-- The state of the Postgres store: which tables exist, the rows of
`users`, and the next value of the `SERIAL` sequence for `id`. -/
structure DBState where
  catalog : List String
  rows : List UserRow
  nextId : Nat
  deriving DecidableEq, Repr

/-- A store before any schema setup: no tables, the id sequence at 1. -/
def emptyDB : DBState := { catalog := [], rows := [], nextId := 1 }

/-- One store operation issued by a handler: the `INSERT` of line
56–59 or the `SELECT` of line 81. -/
inductive StoreOp where
  | insertUser (username : String) (hash : BcryptHash)
  | selectUser (username : String)
  deriving DecidableEq, Repr

/-- Whether a store operation is a write. -/
def StoreOp.isWrite : StoreOp → Bool
  | .insertUser _ _ => true
  | .selectUser _ => false

/-- Models the query `INSERT INTO users (username, password_hash)
VALUES ($1, $2) RETURNING id, username` (lines 56–59): fails with
Postgres code `42P01` if the `users` table does not exist, with the
unique-violation code `23505` if the username is already present, and
otherwise appends a row with the next serial id. -/
def insertUser (db : DBState) (username : String) (hash : BcryptHash)
    (now : Nat) : Except PgError (UserRow × DBState) :=
  if "users" ∉ db.catalog then
    .error { code := "42P01" }
  else if db.rows.any (fun r => r.username == username) then
    .error { code := "23505" }
  else
    let row : UserRow :=
      { id := db.nextId, username := username, password_hash := hash,
        created_at := now }
    .ok (row, { db with rows := db.rows ++ [row], nextId := db.nextId + 1 })

/-- Models the query `SELECT * FROM users WHERE username = $1`
(line 81): fails with `42P01` if the table does not exist, otherwise
returns the matching rows. -/
def selectByUsername (db : DBState) (username : String) :
    Except PgError (List UserRow) :=
  if "users" ∉ db.catalog then
    .error { code := "42P01" }
  else
    .ok (db.rows.filter (fun r => r.username == username))

/-- The body of a JSON response the server sends: a bare message
object, or (for successful registration, line 61) a message together
with the returned `id` and `username` fields of the new row. -/
inductive ResponseBody where
  | msg (message : String)
  | msgUser (message : String) (id : Nat) (username : String)
  deriving DecidableEq, Repr

/-- The strings carried by a response body. -/
def ResponseBody.strings : ResponseBody → List String
  | .msg m => [m]
  | .msgUser m _ u => [m, u]

/-- An HTTP response: status code and JSON body. -/
structure HttpResponse where
  status : Nat
  body : ResponseBody
  deriving DecidableEq, Repr

/-- The five fixed message literals of `server.js`. -/
def fixedMessages : List String :=
  ["用户名和密码不能为空", "注册成功", "用户名已存在", "服务器内部错误",
   "登录成功", "用户名或密码错误"]

/-- Response of line 48 / 76: missing or empty credentials. -/
def badRequest : HttpResponse := { status := 400, body := .msg "用户名和密码不能为空" }

/-- Response of line 68 / 98: unexpected failure. -/
def serverError : HttpResponse := { status := 500, body := .msg "服务器内部错误" }

/-- Response of line 65: duplicate username. -/
def usernameTaken : HttpResponse := { status := 409, body := .msg "用户名已存在" }

/-- Response of line 85 / 94: credential rejection. -/
def loginRejected : HttpResponse := { status := 401, body := .msg "用户名或密码错误" }

/-- Response of line 92: credential acceptance. -/
def loginAccepted : HttpResponse := { status := 200, body := .msg "登录成功" }

/-- Result of one handler call: the HTTP response, the store state
afterwards, and the store operations the call issued. -/
structure CallResult where
  resp : HttpResponse
  db : DBState
  ops : List StoreOp
  deriving DecidableEq, Repr

/-- Models the `POST /api/register` handler (lines 45–70).
`salt` stands for the salt bcrypt draws, `now` for the insertion
timestamp. If either field is falsy the handler answers 400 before any
store access (line 47–49). `bcrypt.hash` rejects non-string data, which
the `catch` turns into a 500, still before any store access. Otherwise
the single `INSERT` runs: success answers 201 with the returned `id`
and `username`; error code `23505` answers 409; any other store error
answers 500 (lines 62–68). -/
def handleRegister (body : RequestBody) (salt now : Nat) (db : DBState) :
    CallResult :=
  match body.username, body.password with
  | some u, some p =>
    if !u.truthy || !p.truthy then
      { resp := badRequest, db := db, ops := [] }
    else
      match p with
      | .str pw =>
        let hash := bcrypt_hash pw salt
        match insertUser db u.pgText hash now with
        | .ok (row, db') =>
          { resp := { status := 201, body := .msgUser "注册成功" row.id row.username },
            db := db', ops := [.insertUser u.pgText hash] }
        | .error e =>
          if e.code == "23505" then
            { resp := usernameTaken, db := db, ops := [.insertUser u.pgText hash] }
          else
            { resp := serverError, db := db, ops := [.insertUser u.pgText hash] }
      | _ => { resp := serverError, db := db, ops := [] }
  | _, _ => { resp := badRequest, db := db, ops := [] }

/-- Models the `POST /api/login` handler (lines 73–100). If either
field is falsy the handler answers 400 before any store access
(lines 75–77). Otherwise the single `SELECT` runs; a store error
answers 500; no matching row answers 401 (line 84–86); otherwise
`bcrypt.compare` decides between 200 and 401 (it rejects non-string
passwords, which the `catch` turns into a 500). The store state is
never changed. -/
def handleLogin (body : RequestBody) (db : DBState) : CallResult :=
  match body.username, body.password with
  | some u, some p =>
    if !u.truthy || !p.truthy then
      { resp := badRequest, db := db, ops := [] }
    else
      match selectByUsername db u.pgText with
      | .error _ =>
        { resp := serverError, db := db, ops := [.selectUser u.pgText] }
      | .ok rows =>
        match rows with
        | [] => { resp := loginRejected, db := db, ops := [.selectUser u.pgText] }
        | user :: _ =>
          match p with
          | .str pw =>
            if bcrypt_compare pw user.password_hash then
              { resp := loginAccepted, db := db, ops := [.selectUser u.pgText] }
            else
              { resp := loginRejected, db := db, ops := [.selectUser u.pgText] }
          | _ => { resp := serverError, db := db, ops := [.selectUser u.pgText] }
  | _, _ => { resp := badRequest, db := db, ops := [] }

/-- Models the query `CREATE TABLE IF NOT EXISTS users (...)`
(lines 26–33): on a healthy store it adds the `users` table to the
catalog when absent and is a no-op when present; `storeFails` injects
a store-level failure (connectivity, permissions). -/
def createUsersTable (storeFails : Bool) (catalog : List String) :
    Except PgError (List String) :=
  if storeFails then .error { code := "08006" }
  else if "users" ∈ catalog then .ok catalog
  else .ok (catalog ++ ["users"])

/-- Models `initializeDatabase` (lines 23–40): runs the
`CREATE TABLE IF NOT EXISTS` query; a failure is caught, logged and
swallowed (lines 35–39) — it does not propagate, and the state is
whatever the store was left with. -/
def initializeDatabase (storeFails : Bool) (db : DBState) : DBState :=
  match createUsersTable storeFails db.catalog with
  | .ok catalog => { db with catalog := catalog }
  | .error _ => db

/-- The running server process: whether it is accepting connections,
and the store state. -/
structure ServerState where
  listening : Bool
  db : DBState
  deriving DecidableEq, Repr

/-- Models the startup sequence (lines 104–107): `app.listen` begins
accepting connections, and only then does its callback run
`initializeDatabase`, whose errors are swallowed; nothing stops the
server on failure. -/
def startServer (storeFails : Bool) (db : DBState) : ServerState :=
  { listening := true, db := initializeDatabase storeFails db }

/-- A register request against the running process: served whenever
the server is listening. -/
def serveRegister (s : ServerState) (body : RequestBody) (salt now : Nat) :
    Option CallResult :=
  if s.listening then some (handleRegister body salt now s.db) else none

/-- A login request against the running process: served whenever the
server is listening. -/
def serveLogin (s : ServerState) (body : RequestBody) : Option CallResult :=
  if s.listening then some (handleLogin body s.db) else none

/-- Request body whose two fields are the given strings. -/
def strBody (u p : String) : RequestBody :=
  { username := some (.str u), password := some (.str p) }

/-! ## Helper lemmas -/

theorem register_falsy (body : RequestBody) (salt now : Nat) (db : DBState)
    (h : truthyOpt body.username = false ∨ truthyOpt body.password = false) :
    handleRegister body salt now db = ⟨badRequest, db, []⟩ := by
  obtain ⟨u, p⟩ := body
  cases u <;> cases p <;> simp_all [handleRegister, truthyOpt]

theorem login_falsy (body : RequestBody) (db : DBState)
    (h : truthyOpt body.username = false ∨ truthyOpt body.password = false) :
    handleLogin body db = ⟨badRequest, db, []⟩ := by
  obtain ⟨u, p⟩ := body
  cases u <;> cases p <;> simp_all [handleLogin, truthyOpt]

theorem register_str_ok (u p : String) (salt now : Nat) (db : DBState)
    (hu : u ≠ "") (hp : p ≠ "") (hcat : "users" ∈ db.catalog)
    (hfree : db.rows.any (fun r => r.username == u) = false) :
    handleRegister (strBody u p) salt now db =
      { resp := { status := 201, body := .msgUser "注册成功" db.nextId u },
        db := { catalog := db.catalog,
                rows := db.rows ++
                  [{ id := db.nextId, username := u,
                     password_hash := bcrypt_hash p salt, created_at := now }],
                nextId := db.nextId + 1 },
        ops := [.insertUser u (bcrypt_hash p salt)] } := by
  simp [handleRegister, strBody, JsonValue.truthy, String.isEmpty_iff, hu, hp,
    insertUser, hcat, hfree, JsonValue.pgText]

theorem register_str_dup (u p : String) (salt now : Nat) (db : DBState)
    (hu : u ≠ "") (hp : p ≠ "") (hcat : "users" ∈ db.catalog)
    (hdup : db.rows.any (fun r => r.username == u) = true) :
    handleRegister (strBody u p) salt now db =
      ⟨usernameTaken, db, [.insertUser u (bcrypt_hash p salt)]⟩ := by
  simp [handleRegister, strBody, JsonValue.truthy, String.isEmpty_iff, hu, hp,
    insertUser, hcat, hdup, JsonValue.pgText]

theorem login_str_select (u p : String) (db : DBState)
    (hu : u ≠ "") (hp : p ≠ "") (hcat : "users" ∈ db.catalog) :
    handleLogin (strBody u p) db =
      match db.rows.filter (fun r => r.username == u) with
      | [] => ⟨loginRejected, db, [.selectUser u]⟩
      | user :: _ =>
        if bcrypt_compare p user.password_hash then
          ⟨loginAccepted, db, [.selectUser u]⟩
        else
          ⟨loginRejected, db, [.selectUser u]⟩ := by
  simp only [handleLogin, strBody, JsonValue.truthy, JsonValue.pgText,
    selectByUsername, hcat]
  have hu' : u.isEmpty = false := by
    cases h : u.isEmpty
    · rfl
    · exact absurd ((String.isEmpty_iff u).mp h) hu
  have hp' : p.isEmpty = false := by
    cases h : p.isEmpty
    · rfl
    · exact absurd ((String.isEmpty_iff p).mp h) hp
  simp [hu', hp']

theorem login_db_unchanged (body : RequestBody) (db : DBState) :
    (handleLogin body db).db = db := by
  obtain ⟨u, p⟩ := body
  cases u <;> cases p <;> simp only [handleLogin]
  all_goals repeat' split
  all_goals rfl

theorem register_str_noschema (u p : String) (salt now : Nat) (db : DBState)
    (hu : u ≠ "") (hp : p ≠ "") (hcat : "users" ∉ db.catalog) :
    handleRegister (strBody u p) salt now db =
      ⟨serverError, db, [.insertUser u (bcrypt_hash p salt)]⟩ := by
  simp [handleRegister, strBody, JsonValue.truthy, String.isEmpty_iff, hu, hp,
    insertUser, hcat, JsonValue.pgText]

theorem register_str_ops (u p : String) (salt now : Nat) (db : DBState)
    (hu : u ≠ "") (hp : p ≠ "") :
    (handleRegister (strBody u p) salt now db).ops =
      [.insertUser u (bcrypt_hash p salt)] := by
  by_cases hcat : "users" ∈ db.catalog
  · by_cases hdup : db.rows.any (fun r => r.username == u) = true
    · rw [register_str_dup u p salt now db hu hp hcat hdup]
    · rw [register_str_ok u p salt now db hu hp hcat (by simpa using hdup)]
  · rw [register_str_noschema u p salt now db hu hp hcat]

theorem login_str_ops (u p : String) (db : DBState)
    (hu : u ≠ "") (hp : p ≠ "") :
    (handleLogin (strBody u p) db).ops = [.selectUser u] := by
  by_cases hcat : "users" ∈ db.catalog
  · rw [login_str_select u p db hu hp hcat]
    cases db.rows.filter (fun r => r.username == u) with
    | nil => rfl
    | cons r rest => by_cases hc : bcrypt_compare p r.password_hash <;> simp [hc]
  · simp [handleLogin, strBody, JsonValue.truthy, String.isEmpty_iff, hu, hp,
      selectByUsername, hcat, JsonValue.pgText]

theorem register_resp_strings (body : RequestBody) (salt now : Nat)
    (db : DBState) :
    ∀ s ∈ (handleRegister body salt now db).resp.body.strings,
      s ∈ fixedMessages ∨ ∃ v, body.username = some v ∧ s = v.pgText := by
  obtain ⟨u, p⟩ := body
  cases u with
  | none =>
    cases p <;>
      simp [handleRegister, badRequest, ResponseBody.strings, fixedMessages]
  | some v =>
    cases p with
    | none => simp [handleRegister, badRequest, ResponseBody.strings, fixedMessages]
    | some w =>
      simp only [handleRegister]
      split
      · simp [badRequest, ResponseBody.strings, fixedMessages]
      · cases w with
        | str pw =>
          simp only
          rcases hins : insertUser db v.pgText (bcrypt_hash pw salt) now with e | pr
          · simp only [hins]
            split <;>
              simp [usernameTaken, serverError, ResponseBody.strings, fixedMessages]
          · have hrow : pr.1.username = v.pgText := by
              simp only [insertUser] at hins
              split at hins
              · cases hins
              · split at hins
                · cases hins
                · cases hins; rfl
            simp only [hins]
            intro s hs
            simp [ResponseBody.strings] at hs
            rcases hs with hs | hs
            · exact Or.inl (by simp [fixedMessages, hs])
            · exact Or.inr ⟨v, rfl, by rw [hs, hrow]⟩
        | num n => simp [serverError, ResponseBody.strings, fixedMessages]
        | bool b => simp [serverError, ResponseBody.strings, fixedMessages]
        | null => simp [serverError, ResponseBody.strings, fixedMessages]

theorem login_resp_strings (body : RequestBody) (db : DBState) :
    ∀ s ∈ (handleLogin body db).resp.body.strings,
      s ∈ fixedMessages ∨ ∃ v, body.username = some v ∧ s = v.pgText := by
  obtain ⟨u, p⟩ := body
  cases u <;> cases p <;>
    simp only [handleLogin] <;>
    (repeat' split) <;>
    simp [badRequest, serverError, loginRejected, loginAccepted,
      ResponseBody.strings, fixedMessages]

theorem render_length (h : BcryptHash) :
    h.render.length =
      h.key.length + (Nat.repr h.cost).length + (Nat.repr h.salt).length + 6 := by
  have h4 : "$2b$".length = 4 := rfl
  have h1 : "$".length = 1 := rfl
  simp [BcryptHash.render, String.length_append, h4, h1]
  omega

theorem render_ne_key (h : BcryptHash) : h.render ≠ h.key := by
  intro e
  have := congrArg String.length e
  rw [render_length] at this
  omega

theorem render_ne_empty (h : BcryptHash) : h.render ≠ "" := by
  intro e
  have := congrArg String.length e
  rw [render_length] at this
  have h0 : ("" : String).length = 0 := rfl
  omega

/-! ## Claims -/

/-- C1: the spec demands that a schema-initialization failure at
startup be fatal, with no register/login traffic served afterwards.
The code does the opposite: `app.listen` begins accepting connections
before `initializeDatabase` even runs, and `initializeDatabase`
catches any store error and merely logs it. Concretely, with the store
failing during initialization, the server is listening, a register
request is served (answered 500 on a store with no schema), and on a
store whose `users` table survives from an earlier run both a login
request and a register request are served, the latter succeeding with
201 — traffic flows despite the failed initialization. -/
theorem schema_init_failure_not_fatal :
    (startServer true emptyDB).listening = true ∧
    serveRegister (startServer true emptyDB) (strBody "alice" "pw") 7 0 =
      some ⟨serverError, emptyDB, [.insertUser "alice" (bcrypt_hash "pw" 7)]⟩ ∧
    serveLogin (startServer true ⟨["users"], [], 1⟩) (strBody "alice" "pw") =
      some ⟨loginRejected, ⟨["users"], [], 1⟩, [.selectUser "alice"]⟩ ∧
    serveRegister (startServer true ⟨["users"], [], 1⟩) (strBody "alice" "pw") 7 0 =
      some ⟨⟨201, .msgUser "注册成功" 1 "alice"⟩,
            ⟨["users"], [⟨1, "alice", bcrypt_hash "pw" 7, 0⟩], 2⟩,
            [.insertUser "alice" (bcrypt_hash "pw" 7)]⟩ := by
  refine ⟨rfl, ?_, ?_, ?_⟩ <;> decide

/-- C2: for non-empty `username` and `password`, if `register`
succeeds (status 201) on a store with no prior record for that
username, then `authenticate` with the same pair against the resulting
store answers the acceptance response (200, 登录成功). -/
theorem register_then_login_accepted (u p : String) (salt now : Nat)
    (db : DBState) (hu : u ≠ "") (hp : p ≠ "")
    (hfree : ∀ r ∈ db.rows, r.username ≠ u)
    (hreg : (handleRegister (strBody u p) salt now db).resp.status = 201) :
    (handleLogin (strBody u p)
      (handleRegister (strBody u p) salt now db).db).resp = loginAccepted := by
  by_cases hcat : "users" ∈ db.catalog
  · have hfree' : db.rows.any (fun r => r.username == u) = false := by
      rw [Bool.eq_false_iff]
      intro hany
      rw [List.any_eq_true] at hany
      obtain ⟨r, hr, he⟩ := hany
      exact hfree r hr (by simpa using he)
    rw [register_str_ok u p salt now db hu hp hcat hfree']
    have hnil : db.rows.filter (fun r => r.username == u) = [] := by
      rw [List.filter_eq_nil_iff]
      intro r hr
      simpa using hfree r hr
    rw [login_str_select u p
      { catalog := db.catalog,
        rows := db.rows ++
          [{ id := db.nextId, username := u,
             password_hash := bcrypt_hash p salt, created_at := now }],
        nextId := db.nextId + 1 } hu hp hcat]
    simp [List.filter_append, hnil, bcrypt_compare, bcrypt_hash]
  · rw [register_str_noschema u p salt now db hu hp hcat] at hreg
    simp [serverError] at hreg

/-- Witness for C2 at a concrete input: registering alice then logging
in as alice on an initialized empty store is accepted. -/
theorem register_then_login_accepted_witness :
    (handleLogin (strBody "alice" "pw")
      (handleRegister (strBody "alice" "pw") 7 0 ⟨["users"], [], 1⟩).db).resp =
      loginAccepted :=
  register_then_login_accepted "alice" "pw" 7 0 ⟨["users"], [], 1⟩
    (by decide) (by decide) (by simp) (by decide)

/-- C3: registering a username that is already present in the store
(stored usernames are non-empty, per the `NOT NULL`/1–50-character
data model and the handler's own input gate) answers the 409
username-taken response — not a crash and not a 500 — and leaves the
store exactly as it was, so no new record is gained. -/
theorem register_taken (u p : String) (salt now : Nat) (db : DBState)
    (hu : u ≠ "") (hp : p ≠ "") (hcat : "users" ∈ db.catalog)
    (htaken : ∃ r ∈ db.rows, r.username = u) :
    handleRegister (strBody u p) salt now db =
      ⟨usernameTaken, db, [.insertUser u (bcrypt_hash p salt)]⟩ := by
  have hdup : db.rows.any (fun r => r.username == u) = true := by
    rw [List.any_eq_true]
    obtain ⟨r, hr, he⟩ := htaken
    exact ⟨r, hr, by simp [he]⟩
  exact register_str_dup u p salt now db hu hp hcat hdup

/-- Witness for C3 at a concrete input: re-registering alice on a
store already holding alice answers 409 and leaves the store
unchanged. -/
theorem register_taken_witness :
    handleRegister (strBody "alice" "other") 9 5
        ⟨["users"], [⟨1, "alice", bcrypt_hash "pw" 7, 0⟩], 2⟩ =
      ⟨usernameTaken, ⟨["users"], [⟨1, "alice", bcrypt_hash "pw" 7, 0⟩], 2⟩,
       [.insertUser "alice" (bcrypt_hash "other" 9)]⟩ :=
  register_taken "alice" "other" 9 5
    ⟨["users"], [⟨1, "alice", bcrypt_hash "pw" 7, 0⟩], 2⟩
    (by decide) (by decide) (by decide)
    ⟨⟨1, "alice", bcrypt_hash "pw" 7, 0⟩, by decide, rfl⟩

/-- C4: a login with a wrong password for a registered username and a
login for a never-registered username produce the very same response
(401, 用户名或密码错误) and leave the store untouched: the two runs are
indistinguishable by outcome. -/
theorem login_rejection_indistinguishable (u p' v q : String) (db : DBState)
    (hu : u ≠ "") (hp : p' ≠ "") (hv : v ≠ "") (hq : q ≠ "")
    (hcat : "users" ∈ db.catalog)
    (_hregistered : ∃ r ∈ db.rows, r.username = u)
    (hwrong : ∀ r ∈ db.rows, r.username = u →
      bcrypt_compare p' r.password_hash = false)
    (hnever : ∀ r ∈ db.rows, r.username ≠ v) :
    handleLogin (strBody u p') db = ⟨loginRejected, db, [.selectUser u]⟩ ∧
    handleLogin (strBody v q) db = ⟨loginRejected, db, [.selectUser v]⟩ ∧
    (handleLogin (strBody u p') db).resp = (handleLogin (strBody v q) db).resp := by
  have h1 : handleLogin (strBody u p') db = ⟨loginRejected, db, [.selectUser u]⟩ := by
    rw [login_str_select u p' db hu hp hcat]
    cases hf : db.rows.filter (fun r => r.username == u) with
    | nil => rfl
    | cons r rest =>
      have hrmem : r ∈ db.rows.filter (fun r => r.username == u) := by
        rw [hf]; exact List.mem_cons_self r rest
      rw [List.mem_filter] at hrmem
      have hcmp := hwrong r hrmem.1 (by simpa using hrmem.2)
      simp [hcmp]
  have h2 : handleLogin (strBody v q) db = ⟨loginRejected, db, [.selectUser v]⟩ := by
    rw [login_str_select v q db hv hq hcat]
    have hnil : db.rows.filter (fun r => r.username == v) = [] := by
      rw [List.filter_eq_nil_iff]
      intro r hr
      simpa using hnever r hr
    simp [hnil]
  exact ⟨h1, h2, by rw [h1, h2]⟩

/-- Witness for C4 at a concrete input: with alice registered, a login
as alice with a wrong password and a login as the never-registered bob
answer the identical 401 response. -/
theorem login_rejection_indistinguishable_witness :
    handleLogin (strBody "alice" "wrong")
        ⟨["users"], [⟨1, "alice", bcrypt_hash "pw" 7, 0⟩], 2⟩ =
      ⟨loginRejected, ⟨["users"], [⟨1, "alice", bcrypt_hash "pw" 7, 0⟩], 2⟩,
       [.selectUser "alice"]⟩ ∧
    handleLogin (strBody "bob" "anything")
        ⟨["users"], [⟨1, "alice", bcrypt_hash "pw" 7, 0⟩], 2⟩ =
      ⟨loginRejected, ⟨["users"], [⟨1, "alice", bcrypt_hash "pw" 7, 0⟩], 2⟩,
       [.selectUser "bob"]⟩ ∧
    (handleLogin (strBody "alice" "wrong")
        ⟨["users"], [⟨1, "alice", bcrypt_hash "pw" 7, 0⟩], 2⟩).resp =
      (handleLogin (strBody "bob" "anything")
        ⟨["users"], [⟨1, "alice", bcrypt_hash "pw" 7, 0⟩], 2⟩).resp :=
  login_rejection_indistinguishable "alice" "wrong" "bob" "anything"
    ⟨["users"], [⟨1, "alice", bcrypt_hash "pw" 7, 0⟩], 2⟩
    (by decide) (by decide) (by decide) (by decide) (by decide)
    ⟨⟨1, "alice", bcrypt_hash "pw" 7, 0⟩, by decide, rfl⟩
    (by decide) (by decide)

/-- C5: any row present in the store after a register call is either a
pre-existing row or the row this call inserted, and in the latter case
its stored `password_hash` — the bcrypt result for the supplied
plaintext — renders to a non-empty string different from that
plaintext. -/
theorem stored_hash_never_plaintext (body : RequestBody) (salt now : Nat)
    (db : DBState) :
    ∀ row ∈ (handleRegister body salt now db).db.rows,
      row ∈ db.rows ∨
      ∃ pw, body.password = some (.str pw) ∧
        row.password_hash = bcrypt_hash pw salt ∧
        row.password_hash.render ≠ "" ∧
        row.password_hash.render ≠ pw := by
  obtain ⟨u, p⟩ := body
  cases u with
  | none => cases p <;> exact fun row hr => Or.inl hr
  | some vu =>
    cases p with
    | none => exact fun row hr => Or.inl hr
    | some vp =>
      simp only [handleRegister]
      split
      · exact fun row hr => Or.inl hr
      · cases vp with
        | str pw =>
          simp only
          rcases hins : insertUser db vu.pgText (bcrypt_hash pw salt) now with e | pr
          · simp only [hins]
            split <;> exact fun row hr => Or.inl hr
          · have hrows : pr.2.rows = db.rows ++
                [{ id := db.nextId, username := vu.pgText,
                   password_hash := bcrypt_hash pw salt, created_at := now }] := by
              simp only [insertUser] at hins
              split at hins
              · cases hins
              · split at hins
                · cases hins
                · cases hins; rfl
            simp only [hins]
            intro row hrow
            rw [hrows] at hrow
            rcases List.mem_append.mp hrow with h | h
            · exact Or.inl h
            · simp only [List.mem_singleton] at h
              refine Or.inr ⟨pw, rfl, by rw [h], ?_, ?_⟩
              · rw [h]
                exact render_ne_empty _
              · rw [h]
                exact render_ne_key (bcrypt_hash pw salt)
        | num n => exact fun row hr => Or.inl hr
        | bool b => exact fun row hr => Or.inl hr
        | null => exact fun row hr => Or.inl hr

/-- Witness for C5 at a concrete input: the row stored by registering
alice carries the bcrypt hash of the password, whose rendered form is
non-empty and differs from the plaintext. -/
theorem stored_hash_never_plaintext_witness :
    (⟨1, "alice", bcrypt_hash "pw" 7, 0⟩ : UserRow) ∈
        (⟨["users"], [], 1⟩ : DBState).rows ∨
    ∃ pw, (strBody "alice" "pw").password = some (.str pw) ∧
      (⟨1, "alice", bcrypt_hash "pw" 7, 0⟩ : UserRow).password_hash =
        bcrypt_hash pw 7 ∧
      (⟨1, "alice", bcrypt_hash "pw" 7, 0⟩ : UserRow).password_hash.render ≠ "" ∧
      (⟨1, "alice", bcrypt_hash "pw" 7, 0⟩ : UserRow).password_hash.render ≠ pw :=
  stored_hash_never_plaintext (strBody "alice" "pw") 7 0 ⟨["users"], [], 1⟩
    ⟨1, "alice", bcrypt_hash "pw" 7, 0⟩ (by decide)

/-- C6: a register or login request whose username or password field
is missing or the empty string answers 400 (用户名和密码不能为空) with an
empty store-operation trace — no store access — and the store state is
returned unchanged. -/
theorem missing_or_empty_rejected (body : RequestBody) (salt now : Nat)
    (db : DBState)
    (h : body.username = none ∨ body.username = some (.str "") ∨
         body.password = none ∨ body.password = some (.str "")) :
    handleRegister body salt now db = ⟨badRequest, db, []⟩ ∧
    handleLogin body db = ⟨badRequest, db, []⟩ := by
  have hf : truthyOpt body.username = false ∨ truthyOpt body.password = false := by
    rcases h with h | h | h | h
    · exact Or.inl (by rw [h]; rfl)
    · exact Or.inl (by rw [h]; decide)
    · exact Or.inr (by rw [h]; rfl)
    · exact Or.inr (by rw [h]; decide)
  exact ⟨register_falsy body salt now db hf, login_falsy body db hf⟩

/-- Witness for C6 at a concrete input: a request with a missing
password field answers 400 from both endpoints and leaves the store
unchanged with no store operation. -/
theorem missing_or_empty_rejected_witness :
    handleRegister ⟨some (.str "alice"), none⟩ 7 0 ⟨["users"], [], 1⟩ =
      ⟨badRequest, ⟨["users"], [], 1⟩, []⟩ ∧
    handleLogin ⟨some (.str "alice"), none⟩ ⟨["users"], [], 1⟩ =
      ⟨badRequest, ⟨["users"], [], 1⟩, []⟩ :=
  missing_or_empty_rejected ⟨some (.str "alice"), none⟩ 7 0 ⟨["users"], [], 1⟩
    (Or.inr (Or.inr (Or.inl rfl)))

/-- C7: on a healthy store whose catalog (like any real Postgres
catalog) lists `users` at most once, the `CREATE TABLE IF NOT EXISTS`
query of the initializer returns success on a first and on a second
call, running the initializer a second time changes nothing, and after
the two calls the catalog lists exactly one `users` table. -/
theorem initializeDatabase_idempotent (db : DBState)
    (hcount : db.catalog.count "users" ≤ 1) :
    (∃ c, createUsersTable false db.catalog = .ok c) ∧
    (∃ c, createUsersTable false (initializeDatabase false db).catalog = .ok c) ∧
    initializeDatabase false (initializeDatabase false db) =
      initializeDatabase false db ∧
    (initializeDatabase false (initializeDatabase false db)).catalog.count
      "users" = 1 := by
  by_cases hm : "users" ∈ db.catalog
  · have h1 : initializeDatabase false db = db := by
      simp [initializeDatabase, createUsersTable, hm]
    have hpos : 0 < db.catalog.count "users" := List.count_pos_iff.mpr hm
    refine ⟨⟨db.catalog, by simp [createUsersTable, hm]⟩,
      ⟨db.catalog, by rw [h1]; simp [createUsersTable, hm]⟩,
      by simp [h1], ?_⟩
    rw [h1, h1]
    omega
  · have h1 : initializeDatabase false db =
        { db with catalog := db.catalog ++ ["users"] } := by
      simp [initializeDatabase, createUsersTable, hm]
    have hm2 : "users" ∈ db.catalog ++ ["users"] := by simp
    have h2 : initializeDatabase false (initializeDatabase false db) =
        initializeDatabase false db := by
      rw [h1]
      simp [initializeDatabase, createUsersTable, hm2]
    have hzero : db.catalog.count "users" = 0 := List.count_eq_zero.mpr hm
    refine ⟨⟨db.catalog ++ ["users"], by simp [createUsersTable, hm]⟩,
      ⟨db.catalog ++ ["users"], by rw [h1]; simp [createUsersTable, hm2]⟩,
      h2, ?_⟩
    rw [h2, h1]
    simp [List.count_append, hzero]

/-- Witness for C7 at a concrete input: initializing a fresh store
twice errors on neither call, changes nothing the second time, and
leaves exactly one `users` table. -/
theorem initializeDatabase_idempotent_witness :
    (∃ c, createUsersTable false emptyDB.catalog = .ok c) ∧
    (∃ c, createUsersTable false (initializeDatabase false emptyDB).catalog =
      .ok c) ∧
    initializeDatabase false (initializeDatabase false emptyDB) =
      initializeDatabase false emptyDB ∧
    (initializeDatabase false (initializeDatabase false emptyDB)).catalog.count
      "users" = 1 :=
  initializeDatabase_idempotent emptyDB (by decide)

/-- C8: a successful register call (status 201) responds with exactly
the message literal, the newly assigned id (the store's next serial
value) and the username; and in every register or login response the
only string not drawn from the fixed message literals is the request's
username — the plaintext password and the password hash are never
placed into a response. -/
theorem register_response_id_username_only (u p : String) (salt now : Nat)
    (db : DBState) (body : RequestBody)
    (hu : u ≠ "") (hp : p ≠ "")
    (hreg : (handleRegister (strBody u p) salt now db).resp.status = 201) :
    (handleRegister (strBody u p) salt now db).resp =
      { status := 201, body := .msgUser "注册成功" db.nextId u } ∧
    (∀ s ∈ (handleRegister body salt now db).resp.body.strings,
      s ∈ fixedMessages ∨ ∃ v, body.username = some v ∧ s = v.pgText) ∧
    (∀ s ∈ (handleLogin body db).resp.body.strings,
      s ∈ fixedMessages ∨ ∃ v, body.username = some v ∧ s = v.pgText) := by
  refine ⟨?_, register_resp_strings body salt now db, login_resp_strings body db⟩
  by_cases hcat : "users" ∈ db.catalog
  · by_cases hdup : db.rows.any (fun r => r.username == u) = true
    · rw [register_str_dup u p salt now db hu hp hcat hdup] at hreg
      simp [usernameTaken] at hreg
    · rw [register_str_ok u p salt now db hu hp hcat (by simpa using hdup)]
  · rw [register_str_noschema u p salt now db hu hp hcat] at hreg
    simp [serverError] at hreg

/-- Witness for C8 at a concrete input: registering alice on an
initialized empty store responds with exactly id 1 and the username,
and the response strings of both endpoints stay within the fixed
messages plus the username. -/
theorem register_response_id_username_only_witness :
    (handleRegister (strBody "alice" "pw") 7 0 ⟨["users"], [], 1⟩).resp =
      { status := 201, body := .msgUser "注册成功" 1 "alice" } ∧
    (∀ s ∈ (handleRegister (strBody "alice" "pw") 7 0
        ⟨["users"], [], 1⟩).resp.body.strings,
      s ∈ fixedMessages ∨
        ∃ v, (strBody "alice" "pw").username = some v ∧ s = v.pgText) ∧
    (∀ s ∈ (handleLogin (strBody "alice" "pw")
        ⟨["users"], [], 1⟩).resp.body.strings,
      s ∈ fixedMessages ∨
        ∃ v, (strBody "alice" "pw").username = some v ∧ s = v.pgText) :=
  register_response_id_username_only "alice" "pw" 7 0 ⟨["users"], [], 1⟩
    (strBody "alice" "pw") (by decide) (by decide) (by decide)

/-- C9 counterexample: not every register call issues a store write —
a register call with an empty username is answered before any store
access, with an empty operation trace, refuting "every register call
issues exactly one store write". -/
theorem register_call_without_store_write :
    (handleRegister (strBody "" "pw") 0 0 emptyDB).ops = [] := by decide

/-- C9 amended: every register call whose two fields are present as
non-empty strings issues exactly one store operation, the single
`INSERT` (a write); every login call whose two fields are present as
non-empty strings issues exactly one store operation, the single
`SELECT` (a read); a call with a falsy field issues no store
operation; and login never mutates the store — for every state and
input the store after login equals the store before. -/
theorem store_ops_per_call (u p : String) (body : RequestBody)
    (salt now : Nat) (db : DBState) (hu : u ≠ "") (hp : p ≠ "") :
    (handleRegister (strBody u p) salt now db).ops =
      [.insertUser u (bcrypt_hash p salt)] ∧
    StoreOp.isWrite (.insertUser u (bcrypt_hash p salt)) = true ∧
    (handleLogin (strBody u p) db).ops = [.selectUser u] ∧
    StoreOp.isWrite (.selectUser u) = false ∧
    (truthyOpt body.username = false ∨ truthyOpt body.password = false →
      (handleRegister body salt now db).ops = [] ∧
      (handleLogin body db).ops = []) ∧
    (handleLogin body db).db = db := by
  refine ⟨register_str_ops u p salt now db hu hp, rfl,
    login_str_ops u p db hu hp, rfl, ?_, login_db_unchanged body db⟩
  intro hf
  exact ⟨by rw [register_falsy body salt now db hf],
    by rw [login_falsy body db hf]⟩

/-- Witness for C9 (amended) at a concrete input: registering alice
issues exactly the one INSERT, logging in issues exactly the one
SELECT, a falsy-field call issues nothing, and login leaves the store
as it was. -/
theorem store_ops_per_call_witness :
    (handleRegister (strBody "alice" "pw") 7 0 ⟨["users"], [], 1⟩).ops =
      [.insertUser "alice" (bcrypt_hash "pw" 7)] ∧
    StoreOp.isWrite (.insertUser "alice" (bcrypt_hash "pw" 7)) = true ∧
    (handleLogin (strBody "alice" "pw") ⟨["users"], [], 1⟩).ops =
      [.selectUser "alice"] ∧
    StoreOp.isWrite (.selectUser "alice") = false ∧
    (truthyOpt (⟨some (.str ""), none⟩ : RequestBody).username = false ∨
       truthyOpt (⟨some (.str ""), none⟩ : RequestBody).password = false →
      (handleRegister ⟨some (.str ""), none⟩ 7 0 ⟨["users"], [], 1⟩).ops = [] ∧
      (handleLogin ⟨some (.str ""), none⟩ ⟨["users"], [], 1⟩).ops = []) ∧
    (handleLogin ⟨some (.str ""), none⟩ ⟨["users"], [], 1⟩).db =
      ⟨["users"], [], 1⟩ :=
  store_ops_per_call "alice" "pw" ⟨some (.str ""), none⟩ 7 0
    ⟨["users"], [], 1⟩ (by decide) (by decide)

/-- C10: the presence check is JavaScript falsiness, so a username or
password field holding any falsy JSON value — the number 0, `false`,
`null`, or the empty string, not only an absent field — makes both
endpoints answer the 400 bad-input response, with the store untouched
and no store operation issued. -/
theorem falsy_fields_rejected (body : RequestBody) (salt now : Nat)
    (db : DBState)
    (h : (∃ v, body.username = some v ∧ v.truthy = false) ∨
         (∃ v, body.password = some v ∧ v.truthy = false)) :
    JsonValue.truthy (.num 0) = false ∧
    JsonValue.truthy (.bool false) = false ∧
    JsonValue.truthy .null = false ∧
    JsonValue.truthy (.str "") = false ∧
    handleRegister body salt now db = ⟨badRequest, db, []⟩ ∧
    handleLogin body db = ⟨badRequest, db, []⟩ := by
  have hf : truthyOpt body.username = false ∨ truthyOpt body.password = false := by
    rcases h with ⟨v, hv, ht⟩ | ⟨v, hv, ht⟩
    · exact Or.inl (by rw [hv]; exact ht)
    · exact Or.inr (by rw [hv]; exact ht)
  exact ⟨by decide, rfl, rfl, by decide,
    register_falsy body salt now db hf, login_falsy body db hf⟩

/-- Witness for C10 at a concrete input: a request whose username is
the number 0 is answered 400 by both endpoints with the store
untouched. -/
theorem falsy_fields_rejected_witness :
    JsonValue.truthy (.num 0) = false ∧
    JsonValue.truthy (.bool false) = false ∧
    JsonValue.truthy .null = false ∧
    JsonValue.truthy (.str "") = false ∧
    handleRegister ⟨some (.num 0), some (.str "pw")⟩ 7 0 ⟨["users"], [], 1⟩ =
      ⟨badRequest, ⟨["users"], [], 1⟩, []⟩ ∧
    handleLogin ⟨some (.num 0), some (.str "pw")⟩ ⟨["users"], [], 1⟩ =
      ⟨badRequest, ⟨["users"], [], 1⟩, []⟩ :=
  falsy_fields_rejected ⟨some (.num 0), some (.str "pw")⟩ 7 0
    ⟨["users"], [], 1⟩ (Or.inl ⟨.num 0, rfl, by decide⟩)

end Server
